import Mathlib

/-!
Shallow embedding of the appic design editor's history manager
(`src/hooks/useHistory.ts`) and design store
(`src/presentation/stores/useDesignStore.ts`, constants in
`src/constants/canvas.ts`), together with proofs about the undo/redo
round-trip, the history cap, branch truncation, page deletion, layer
reordering, active-layer synchronization and the missing-linkage guards.
-/

namespace Appic

/-- A JSON string, modelled by what `JSON.parse` does with it: `valid s` is a
string produced by `JSON.stringify` of the value `s` (so parsing it succeeds
and yields `s` back), `corrupt raw` is any other string (parsing it throws a
`SyntaxError`).  The program treats these strings opaquely apart from
stringify/parse, so this partition is a faithful model of the string domain. -/
inductive Snap (α : Type) where
  | valid (s : α)
  | corrupt (raw : String)
deriving DecidableEq, Repr

/-- `JSON.parse`: succeeds exactly on strings produced by `JSON.stringify`. -/
def parse {α : Type} : Snap α → Option α
  | .valid s => some s
  | .corrupt _ => none

/-- `JSON.stringify(canvas.toJSON())`: always yields a parseable string. -/
def stringify {α : Type} (s : α) : Snap α := .valid s

/-- The scene content of a fabric canvas, abstracted to the list of its
objects (object identity is all the history manager depends on). -/
abbrev Scene := List Nat

/-- `MAX_HISTORY_SIZE` from `src/constants/canvas.ts`. -/
def MAX_HISTORY_SIZE : Nat := 50

/-- State of the `useHistory` hook: the `history` array of serialized
snapshots, the `currentIndex` pointer (initialized to `-1`), and the live
canvas scene the hook operates on. -/
structure HistoryState where
  history : List (Snap Scene)
  currentIndex : Int
  scene : Scene
deriving DecidableEq, Repr

/-- JavaScript `array.slice(-n)` for `n > 0`: the last `min n length`
elements. -/
def sliceLast {α : Type} (l : List α) (n : Nat) : List α :=
  l.drop (l.length - n)

/-- `saveHistory` (the capturing branch: canvas present and the
`isInternalChange` reentrancy guard not set — the guard only suppresses
captures during replay and is not part of the claims proved here):
`newHistory = [...prev.slice(0, currentIndex + 1), json]` capped by
`slice(-MAX_HISTORY_SIZE)`, and
`currentIndex = Math.min(prev + 1, MAX_HISTORY_SIZE - 1)`. -/
def saveHistory (st : HistoryState) : HistoryState :=
  let json := stringify st.scene
  let newHistory := st.history.take (st.currentIndex + 1).toNat ++ [json]
  { st with
    history := sliceLast newHistory MAX_HISTORY_SIZE
    currentIndex := min (st.currentIndex + 1) ((MAX_HISTORY_SIZE : Int) - 1) }

/-- `undo` (with a live canvas): no-op when `currentIndex <= 0`; otherwise
parses `history[currentIndex - 1]` and loads it into the canvas, then sets
`currentIndex`.  `JSON.parse` is not wrapped in any try/catch in the source:
a parse failure is an uncaught exception, modelled as `Except.error` —
thrown before `setCurrentIndex(prevIndex)` runs, so the position is not
updated, and nothing is logged. -/
def undo (st : HistoryState) : Except String HistoryState :=
  if st.currentIndex ≤ 0 then .ok st
  else
    let prevIndex := st.currentIndex - 1
    let json := (st.history[prevIndex.toNat]?).getD (Snap.corrupt "undefined")
    match parse json with
    | none => .error "SyntaxError"
    | some sc => .ok { st with scene := sc, currentIndex := prevIndex }

/-- `redo` (with a live canvas): no-op when
`currentIndex >= history.length - 1`; otherwise symmetric to `undo`. -/
def redo (st : HistoryState) : Except String HistoryState :=
  if st.currentIndex ≥ (st.history.length : Int) - 1 then .ok st
  else
    let nextIndex := st.currentIndex + 1
    let json := (st.history[nextIndex.toNat]?).getD (Snap.corrupt "undefined")
    match parse json with
    | none => .error "SyntaxError"
    | some sc => .ok { st with scene := sc, currentIndex := nextIndex }

/-- History states reachable by captures (a user edit setting the scene,
immediately snapshotted by `saveHistory`), undos and redos, from the hook's
initial state `history = [], currentIndex = -1`. -/
inductive HistReachable : HistoryState → Prop where
  | init (sc : Scene) : HistReachable ⟨[], -1, sc⟩
  | capture {st : HistoryState} (sc : Scene) (h : HistReachable st) :
      HistReachable (saveHistory { st with scene := sc })
  | undoStep {st st' : HistoryState} (h : HistReachable st)
      (hu : undo st = .ok st') : HistReachable st'
  | redoStep {st st' : HistoryState} (h : HistReachable st)
      (hr : redo st = .ok st') : HistReachable st'

/-- Invariant of reachable history states: either still empty, or the index
is in bounds, the history is within the cap, every stored snapshot parses,
and the snapshot at the current index is exactly the serialized live scene. -/
def HistInv (st : HistoryState) : Prop :=
  (st.history = [] ∧ st.currentIndex = -1) ∨
  (0 ≤ st.currentIndex ∧ st.currentIndex.toNat < st.history.length ∧
    st.history.length ≤ MAX_HISTORY_SIZE ∧
    st.history[st.currentIndex.toNat]? = some (stringify st.scene) ∧
    ∀ e ∈ st.history, ∃ s, e = Snap.valid s)

theorem histInv_saveHistory {st : HistoryState} (sc : Scene) (h : HistInv st) :
    HistInv (saveHistory { st with scene := sc }) := by
  rcases h with ⟨h1, h2⟩ | ⟨h0, hlt, hle, hget, hval⟩
  · refine Or.inr ?_
    simp [saveHistory, sliceLast, h1, h2, stringify, MAX_HISTORY_SIZE, HistInv]
  · obtain ⟨n, hni⟩ : ∃ n : Nat, st.currentIndex = (n : Int) :=
      ⟨st.currentIndex.toNat, (Int.toNat_of_nonneg h0).symm⟩
    simp only [hni, Int.toNat_natCast] at hlt hget
    have hM : MAX_HISTORY_SIZE = 50 := rfl
    have e1 : ((n : Int) + 1).toNat = n + 1 := by omega
    have hlentake : (st.history.take (n + 1)).length = n + 1 := by
      rw [List.length_take]; omega
    have hlen2 : (st.history.take (n + 1) ++ [Snap.valid sc]).length = n + 2 := by
      rw [List.length_append, hlentake]; rfl
    have hsave : saveHistory { st with scene := sc }
        = ⟨(st.history.take (n + 1) ++ [Snap.valid sc]).drop (n + 2 - 50),
           min ((n : Int) + 1) 49, sc⟩ := by
      simp only [saveHistory, sliceLast, stringify, hni, e1, hlen2, hM]
      norm_num
    rw [hsave]
    refine Or.inr ⟨?_, ?_, ?_, ?_, ?_⟩
    · show (0 : Int) ≤ min ((n : Int) + 1) 49
      omega
    · show (min ((n : Int) + 1) 49).toNat
        < ((st.history.take (n + 1) ++ [Snap.valid sc]).drop (n + 2 - 50)).length
      rw [List.length_drop, hlen2]; omega
    · show ((st.history.take (n + 1) ++ [Snap.valid sc]).drop (n + 2 - 50)).length
        ≤ MAX_HISTORY_SIZE
      rw [List.length_drop, hlen2, hM]; omega
    · show ((st.history.take (n + 1) ++ [Snap.valid sc]).drop
          (n + 2 - 50))[(min ((n : Int) + 1) 49).toNat]? = some (stringify sc)
      rw [List.getElem?_drop]
      have e2 : n + 2 - 50 + (min ((n : Int) + 1) 49).toNat = n + 1 := by omega
      rw [e2, List.getElem?_append_right (by omega : (st.history.take (n + 1)).length ≤ n + 1),
        hlentake]
      simp [stringify]
    · intro e he
      have he' := List.mem_of_mem_drop he
      rcases List.mem_append.mp he' with h' | h'
      · exact hval e (List.mem_of_mem_take h')
      · exact ⟨sc, List.mem_singleton.mp h'⟩

theorem histInv_undo {st st' : HistoryState} (h : HistInv st)
    (hu : undo st = .ok st') : HistInv st' := by
  unfold undo at hu
  by_cases hle0 : st.currentIndex ≤ 0
  · rw [if_pos hle0] at hu
    cases hu; exact h
  · rw [if_neg hle0] at hu
    rcases h with ⟨_, h2⟩ | ⟨h0, hlt, hle, hget, hval⟩
    · omega
    · obtain ⟨n, hni⟩ : ∃ n : Nat, st.currentIndex = (n : Int) :=
        ⟨st.currentIndex.toNat, (Int.toNat_of_nonneg h0).symm⟩
      simp only [hni, Int.toNat_natCast] at hlt hget hu
      have hn1 : 1 ≤ n := by omega
      have e1 : ((n : Int) - 1).toNat = n - 1 := by omega
      have hbound : n - 1 < st.history.length := by omega
      obtain ⟨e, hge⟩ : ∃ e, st.history[n - 1]? = some e :=
        ⟨_, List.getElem?_eq_getElem hbound⟩
      obtain ⟨s, rfl⟩ : ∃ s, e = Snap.valid s := by
        refine hval e ?_
        exact List.getElem?_mem hge
      rw [e1, hge] at hu
      simp only [Option.getD_some, parse] at hu
      cases hu
      refine Or.inr ⟨by show (0 : Int) ≤ (n : Int) - 1; omega, ?_, hle, ?_, hval⟩
      · show ((n : Int) - 1).toNat < st.history.length
        omega
      · show st.history[((n : Int) - 1).toNat]? = some (stringify s)
        rw [e1, hge]; rfl

theorem histInv_redo {st st' : HistoryState} (h : HistInv st)
    (hr : redo st = .ok st') : HistInv st' := by
  unfold redo at hr
  by_cases hge0 : st.currentIndex ≥ (st.history.length : Int) - 1
  · rw [if_pos hge0] at hr
    cases hr; exact h
  · rw [if_neg hge0] at hr
    rcases h with ⟨h1, h2⟩ | ⟨h0, hlt, hle, hget, hval⟩
    · rw [h1] at hge0; simp at hge0; omega
    · obtain ⟨n, hni⟩ : ∃ n : Nat, st.currentIndex = (n : Int) :=
        ⟨st.currentIndex.toNat, (Int.toNat_of_nonneg h0).symm⟩
      simp only [hni, Int.toNat_natCast] at hlt hget hr
      have e1 : ((n : Int) + 1).toNat = n + 1 := by omega
      have hbound : n + 1 < st.history.length := by omega
      obtain ⟨e, hge⟩ : ∃ e, st.history[n + 1]? = some e :=
        ⟨_, List.getElem?_eq_getElem hbound⟩
      obtain ⟨s, rfl⟩ : ∃ s, e = Snap.valid s := by
        refine hval e ?_
        exact List.getElem?_mem hge
      rw [e1, hge] at hr
      simp only [Option.getD_some, parse] at hr
      cases hr
      refine Or.inr ⟨by show (0 : Int) ≤ (n : Int) + 1; omega, ?_, hle, ?_, hval⟩
      · show ((n : Int) + 1).toNat < st.history.length
        omega
      · show st.history[((n : Int) + 1).toNat]? = some (stringify s)
        rw [e1, hge]; rfl

theorem histInv_reachable {st : HistoryState} (h : HistReachable st) : HistInv st := by
  induction h with
  | init sc => exact Or.inl ⟨rfl, rfl⟩
  | capture sc _ ih => exact histInv_saveHistory sc ih
  | undoStep _ hu ih => exact histInv_undo ih hu
  | redoStep _ hr ih => exact histInv_redo ih hr

/-- C1: in every history state reachable by captures, undos and redos,
`undo()` immediately followed by `redo()` restores the full hook state —
scene, history and position — to what it was immediately before the
`undo()` (stated for the non-boundary positions `0 < currentIndex`); at the
boundaries, `undo()` at position `0` is a no-op leaving history, position
and scene unchanged, and so is `redo()` at the last position. -/
theorem undo_redo_roundtrip (st : HistoryState) (h : HistReachable st) :
    (0 < st.currentIndex → (undo st).bind redo = .ok st) ∧
    (st.currentIndex = 0 → undo st = .ok st) ∧
    (st.currentIndex = (st.history.length : Int) - 1 → redo st = .ok st) := by
  have hinv := histInv_reachable h
  refine ⟨?_, ?_, ?_⟩
  · intro hpos
    rcases hinv with ⟨h1, h2⟩ | ⟨h0, hlt, hle, hget, hval⟩
    · omega
    · obtain ⟨n, hni⟩ : ∃ n : Nat, st.currentIndex = (n : Int) :=
        ⟨st.currentIndex.toNat, (Int.toNat_of_nonneg h0).symm⟩
      simp only [hni, Int.toNat_natCast] at hlt hget
      have hn1 : 1 ≤ n := by omega
      have hguard : ¬ (st.currentIndex ≤ 0) := by omega
      have e1 : (st.currentIndex - 1).toNat = n - 1 := by omega
      obtain ⟨s, hs⟩ : ∃ s, st.history[n - 1]? = some (Snap.valid s) := by
        have hb : n - 1 < st.history.length := by omega
        obtain ⟨e, hge⟩ : ∃ e, st.history[n - 1]? = some e :=
          ⟨_, List.getElem?_eq_getElem hb⟩
        obtain ⟨s, rfl⟩ := hval e (List.getElem?_mem hge)
        exact ⟨s, hge⟩
      have hundo : undo st = .ok ⟨st.history, st.currentIndex - 1, s⟩ := by
        unfold undo
        rw [if_neg hguard]
        simp only [e1, hs, Option.getD_some, parse]
      have hguard2 : ¬ (st.currentIndex - 1 ≥ (st.history.length : Int) - 1) := by
        omega
      have e2 : (st.currentIndex - 1 + 1).toNat = n := by omega
      have hredo : redo ⟨st.history, st.currentIndex - 1, s⟩ = .ok st := by
        unfold redo
        rw [if_neg hguard2]
        simp only [e2, hget, Option.getD_some, parse, stringify]
        have e3 : st.currentIndex - 1 + 1 = st.currentIndex := by omega
        rw [e3]
      rw [hundo]
      exact hredo
  · intro h0'
    unfold undo
    rw [if_pos (le_of_eq h0')]
  · intro hl
    unfold redo
    rw [if_pos (show st.currentIndex ≥ (st.history.length : Int) - 1 from ge_of_eq hl)]

/-- Witness for C1 at the concrete reachable state obtained by capturing the
scenes `[0]` and then `[1]`: history `[valid [0], valid [1]]`, position `1`. -/
theorem undo_redo_roundtrip_witness :
    (0 : Int) < (⟨[Snap.valid [0], Snap.valid [1]], 1, [1]⟩ : HistoryState).currentIndex ∧
    (undo ⟨[Snap.valid [0], Snap.valid [1]], 1, [1]⟩).bind redo
      = .ok ⟨[Snap.valid [0], Snap.valid [1]], 1, [1]⟩ := by
  have h0 := HistReachable.init ([] : Scene)
  have h1 := HistReachable.capture ([0] : Scene) h0
  have h2 := HistReachable.capture ([1] : Scene) h1
  have e : saveHistory { saveHistory { (⟨[], -1, []⟩ : HistoryState) with scene := [0] }
      with scene := [1] } = ⟨[Snap.valid [0], Snap.valid [1]], 1, [1]⟩ := by decide
  rw [e] at h2
  exact ⟨by decide, (undo_redo_roundtrip _ h2).1 (by decide)⟩

/-- All of `scs` captured in order starting from the hook's initial state;
each capture is a user edit setting the scene followed by `saveHistory`. -/
def captureAll (scs : List Scene) : HistoryState :=
  scs.foldl (fun st sc => saveHistory { st with scene := sc }) ⟨[], -1, []⟩

theorem saveHistory_top (st : HistoryState) (sc : Scene)
    (hi : st.currentIndex = (st.history.length : Int) - 1)
    (hle : st.history.length ≤ 50) :
    saveHistory { st with scene := sc }
      = ⟨(st.history ++ [Snap.valid sc]).drop (st.history.length + 1 - 50),
         ((min (st.history.length + 1) 50 : Nat) : Int) - 1, sc⟩ := by
  have e1 : (st.currentIndex + 1).toNat = st.history.length := by omega
  simp only [saveHistory, stringify, sliceLast, e1, List.take_length, MAX_HISTORY_SIZE]
  refine congrArg₂ (HistoryState.mk · · sc) ?_ ?_
  · congr 1
    rw [List.length_append]
    rfl
  · omega

theorem captureAll_spec (scs : List Scene) :
    (captureAll scs).history = (scs.map Snap.valid).drop (scs.length - 50) ∧
    (captureAll scs).currentIndex = ((min scs.length 50 : Nat) : Int) - 1 := by
  induction scs using List.reverseRecOn with
  | nil => exact ⟨rfl, rfl⟩
  | append_singleton l sc ih =>
    obtain ⟨ih1, ih2⟩ := ih
    have hca : captureAll (l ++ [sc]) = saveHistory { captureAll l with scene := sc } := by
      unfold captureAll
      rw [List.foldl_append]
      rfl
    have hlenH : (captureAll l).history.length = min l.length 50 := by
      rw [ih1, List.length_drop, List.length_map]; omega
    have htop := saveHistory_top (captureAll l) sc (by rw [ih2, hlenH]) (by omega)
    rw [hca, htop]
    constructor
    · show ((captureAll l).history ++ [Snap.valid sc]).drop
          ((captureAll l).history.length + 1 - 50)
        = ((l ++ [sc]).map Snap.valid).drop ((l ++ [sc]).length - 50)
      rw [hlenH, ih1, List.map_append, List.map_singleton, List.length_append,
        List.length_singleton]
      rw [List.drop_append_of_le_length
          (by rw [List.length_drop, List.length_map]; omega),
        List.drop_append_of_le_length (by rw [List.length_map]; omega),
        List.drop_drop]
      congr 2
      omega
    · show ((min ((captureAll l).history.length + 1) 50 : Nat) : Int) - 1
        = ((min (l ++ [sc]).length 50 : Nat) : Int) - 1
      rw [hlenH, List.length_append, List.length_singleton]
      omega

set_option maxRecDepth 4000 in
/-- C2: for every sequence of captured snapshots, the retained history never
exceeds the cap `MAX_HISTORY_SIZE = 50` — its length is
`min N MAX_HISTORY_SIZE` — and the retained entries are exactly the most
recent `MAX_HISTORY_SIZE` serialized snapshots in chronological order;
in particular, capturing the 51 scenes `[0], [1], …, [50]` leaves history
length 50 with the oldest retained entry being the 2nd snapshot ever
captured (`[1]`). -/
theorem history_cap (scs : List Scene) :
    (captureAll scs).history.length = min scs.length MAX_HISTORY_SIZE ∧
    (captureAll scs).history
      = (scs.map stringify).drop (scs.length - MAX_HISTORY_SIZE) ∧
    (captureAll ((List.range 51).map (fun n => [n]))).history.length = 50 ∧
    (captureAll ((List.range 51).map (fun n => [n]))).history.head?
      = some (stringify [1]) := by
  obtain ⟨h1, _⟩ := captureAll_spec scs
  refine ⟨?_, ?_, by decide, by decide⟩
  · rw [h1, List.length_drop, List.length_map]
    show _ = min scs.length 50
    omega
  · exact h1

/-- C3: capturing while the current position is strictly before the last
snapshot discards all snapshots after the current position and then appends
the new snapshot: the retained history is exactly the first
`currentIndex + 1` old entries followed by the new serialized scene, which is
therefore the last entry, and the position advances by one.
(The bound hypotheses are the invariant of reachable states,
`histInv_reachable`.) -/
theorem saveHistory_branch_overwrite (st : HistoryState)
    (h0 : 0 ≤ st.currentIndex)
    (hmid : st.currentIndex < (st.history.length : Int) - 1)
    (hcap : st.history.length ≤ MAX_HISTORY_SIZE) :
    (saveHistory st).history
      = st.history.take (st.currentIndex.toNat + 1) ++ [stringify st.scene] ∧
    (saveHistory st).currentIndex = st.currentIndex + 1 ∧
    (saveHistory st).history.getLast? = some (stringify st.scene) ∧
    (saveHistory st).history.length = st.currentIndex.toNat + 2 := by
  obtain ⟨n, hni⟩ : ∃ n : Nat, st.currentIndex = (n : Int) :=
    ⟨st.currentIndex.toNat, (Int.toNat_of_nonneg h0).symm⟩
  rw [MAX_HISTORY_SIZE] at hcap
  have hn : n + 1 < st.history.length := by omega
  have e1 : (st.currentIndex + 1).toNat = n + 1 := by omega
  have e2 : st.currentIndex.toNat = n := by omega
  have hlentake : (st.history.take (n + 1)).length = n + 1 := by
    rw [List.length_take]; omega
  have hlen2 : (st.history.take (n + 1) ++ [stringify st.scene]).length = n + 2 := by
    rw [List.length_append, hlentake]; rfl
  have hh : (saveHistory st).history
      = st.history.take (n + 1) ++ [stringify st.scene] := by
    simp only [saveHistory, sliceLast, e1, MAX_HISTORY_SIZE, hlen2]
    have : n + 2 - 50 = 0 := by omega
    rw [this, List.drop_zero]
  refine ⟨by rw [e2]; exact hh, ?_, ?_, ?_⟩
  · show min (st.currentIndex + 1) ((MAX_HISTORY_SIZE : Int) - 1) = st.currentIndex + 1
    rw [MAX_HISTORY_SIZE]
    omega
  · rw [hh]
    exact List.getLast?_concat _
  · rw [hh, hlen2, e2]

/-- Witness for C3 at the concrete state with history
`[valid [10], valid [20], valid [30]]`, position `0` and live scene `[99]`:
capturing keeps only `valid [10]` and appends `valid [99]`. -/
theorem saveHistory_branch_overwrite_witness :
    (0 : Int) ≤ (⟨[Snap.valid [10], Snap.valid [20], Snap.valid [30]], 0, [99]⟩
        : HistoryState).currentIndex ∧
    ((⟨[Snap.valid [10], Snap.valid [20], Snap.valid [30]], 0, [99]⟩
        : HistoryState).currentIndex
      < (((⟨[Snap.valid [10], Snap.valid [20], Snap.valid [30]], 0, [99]⟩
        : HistoryState).history.length : Int) - 1)) ∧
    (saveHistory ⟨[Snap.valid [10], Snap.valid [20], Snap.valid [30]], 0, [99]⟩).history
      = [Snap.valid [10], Snap.valid [99]] := by
  refine ⟨by decide, by decide, ?_⟩
  have h := saveHistory_branch_overwrite
    ⟨[Snap.valid [10], Snap.valid [20], Snap.valid [30]], 0, [99]⟩
    (by decide) (by decide) (by decide)
  rw [h.1]
  decide

/-- C4 (failing input): `undo()` on a history whose target snapshot is not
valid JSON.  The source wraps neither `JSON.parse(json)` nor
`canvas.loadFromJSON` in a try/catch inside `undo`/`redo`, so the parse
failure is an uncaught exception (`Except.error` here): the editor crashes
instead of logging and keeping the last valid state — the claim's required
behaviour, `.ok` with the state unchanged, does not happen. -/
theorem undo_corrupt_throws :
    undo ⟨[Snap.corrupt "not-json", Snap.valid [1]], 1, [1]⟩
      = Except.error "SyntaxError" := rfl

/-! ### Design store (`useDesignStore`, `src/presentation/stores/useDesignStore.ts`) -/

/-- `Layer` from `src/types/design.types.ts`. -/
structure Layer where
  id : String
  name : String
  type : String
  visible : Bool
  locked : Bool
  opacity : Nat
  fabricObjectId : Option String
deriving DecidableEq, Repr

/-- `PageConfig` from `src/types/design.types.ts`. -/
structure PageConfig where
  id : String
  name : String
  width : Nat
  height : Nat
  backgroundColor : Option String
deriving DecidableEq, Repr

/-- `Page` from `src/types/design.types.ts`. -/
structure Page where
  id : String
  config : PageConfig
  layers : List Layer
  activeLayerId : Option String
  createdAt : Nat
  updatedAt : Nat
deriving DecidableEq, Repr

/-- `Design` from `src/types/design.types.ts`. -/
structure Design where
  id : String
  name : String
  pages : List Page
  activePageId : String
  createdAt : Nat
  updatedAt : Nat
deriving DecidableEq, Repr

/-- A fabric object on a canvas: its custom `id` property (absent unless set
by the object factory) and the flags the store toggles. -/
structure FabricObject where
  id : Option String
  visible : Bool
  selectable : Bool
  evented : Bool
  lockMovementX : Bool
  lockMovementY : Bool
  lockRotation : Bool
  lockScalingX : Bool
  lockScalingY : Bool
deriving DecidableEq, Repr

/-- A fabric `Canvas`: its object list (z-order = list order), the current
active (selected) object, and whether `getElement()` returns a live DOM
element. -/
structure Canvas where
  objects : List FabricObject
  activeObject : Option FabricObject
  hasElement : Bool
deriving DecidableEq, Repr

/-- Effects the store issues against persistence, the canvas and the
console (only `console.error` calls are tracked). -/
inductive Effect where
  | saveDesignEff (d : Design)
  | deletePageDataEff (designId pageId : String)
  | setActiveObjectEff (obj : FabricObject)
  | renderEff
  | logErrorEff (msg : String)
deriving DecidableEq, Repr

/-- The store's world: the zustand state (`design`, `canvasRefs`) plus the
IndexedDB `pageData` table keyed by `(designId, pageId)`. -/
structure World where
  design : Option Design
  canvasRefs : List (String × Option Canvas)
  pageData : List (String × String × Snap (List FabricObject))
deriving DecidableEq, Repr

/-- `canvasRefs.get(pageId)` followed by the truthiness check the store
performs: a missing entry and a `null` entry both yield `none`. -/
def lookupCanvas (refs : List (String × Option Canvas)) (pageId : String) :
    Option Canvas :=
  match refs.find? fun e => e.1 = pageId with
  | none => none
  | some e => e.2

/-- Replace the canvas stored under `key` (mutating the canvas object the
store obtained from the map). -/
def setRef (refs : List (String × Option Canvas)) (key : String) (c : Canvas) :
    List (String × Option Canvas) :=
  refs.map fun e => if e.1 = key then (e.1, some c) else e

/-- `getPageData(designId, pageId)` from
`src/infrastructure/storage/indexedDB.ts`: look up key `designId_pageId`. -/
def getPageData (tbl : List (String × String × Snap (List FabricObject)))
    (designId pageId : String) : Option (Snap (List FabricObject)) :=
  (tbl.find? fun e => e.1 = designId ∧ e.2.1 = pageId).map fun e => e.2.2

/-- `deletePageData(designId, pageId)`: delete key `designId_pageId`. -/
def deletePageData (tbl : List (String × String × Snap (List FabricObject)))
    (designId pageId : String) : List (String × String × Snap (List FabricObject)) :=
  tbl.filter fun e => ¬(e.1 = designId ∧ e.2.1 = pageId)

/-- Helper `updatePage` from `useDesignStore.ts`. -/
def updatePage (pages : List Page) (pageId : String) (updater : Page → Page) :
    List Page :=
  pages.map fun page => if page.id = pageId then updater page else page

/-- Helper `updateLayer` from `useDesignStore.ts`. -/
def updateLayer (pages : List Page) (pageId layerId : String)
    (updater : Layer → Layer) : List Page :=
  pages.map fun page =>
    if page.id = pageId then
      { page with layers := page.layers.map fun layer =>
          if layer.id = layerId then updater layer else layer }
    else page

/-- `deletePage(pageId)`; `now` is `Date.now()`.  Filters the page out,
rejects if nothing would remain, otherwise reassigns `activePageId` to
`pages[0].id` when the deleted page was active, persists the design and
deletes the page's snapshot from IndexedDB. -/
def deletePage (w : World) (now : Nat) (pageId : String) : World × List Effect :=
  match w.design with
  | none => (w, [])
  | some design =>
    match design.pages.filter fun p => p.id ≠ pageId with
    | [] => (w, [])
    | p0 :: rest =>
      let activePageId :=
        if design.activePageId = pageId then p0.id else design.activePageId
      let updatedDesign := { design with
        pages := p0 :: rest
        activePageId := activePageId
        updatedAt := now }
      ({ w with
          design := some updatedDesign
          pageData := deletePageData w.pageData design.id pageId },
        [.saveDesignEff updatedDesign, .deletePageDataEff design.id pageId])

/-- JavaScript `array[i]` for an arbitrary integer index: `undefined`
(`none`) outside `[0, length)`. -/
def jsIndex {α : Type} (l : List α) (i : Int) : Option α :=
  if 0 ≤ i then l[i.toNat]? else none

/-- JavaScript `array.splice(i, 1)` for an in-bounds `i`: remove the element
at `i`. -/
def spliceRemove {α : Type} (l : List α) (i : Nat) : List α :=
  l.take i ++ l.drop (i + 1)

/-- JavaScript `array.splice(start, 0, x)`: insert `x` at `start` clamped to
`[0, length]`, counting from the end when `start` is negative. -/
def spliceInsert {α : Type} (l : List α) (start : Int) (x : α) : List α :=
  let s : Nat := if start < 0 then ((l.length : Int) + start).toNat
                 else min start.toNat l.length
  l.take s ++ [x] ++ l.drop s

/-- fabric's `canvas.moveObjectTo(obj, index)`: move the (first occurrence
of the) object to the given index of the stacking order. -/
def moveObjectTo (objects : List FabricObject) (obj : FabricObject)
    (index : Int) : List FabricObject :=
  match objects.indexOf? obj with
  | none => objects
  | some i => spliceInsert (spliceRemove objects i) index obj

/-- `reorderLayers(pageId, oldIndex, newIndex)`; `now` is `Date.now()`.
Looks up `currentPage.layers[oldIndex]`; returns unchanged when that is
`undefined` (out-of-bounds `oldIndex`) or the layer has no `fabricObjectId`.
Otherwise splices the layer out at `oldIndex` and back in at `newIndex`
(`newIndex` is not bounds-checked — JavaScript `splice` clamps it), persists
the design, and mirrors the move to the canvas stacking order when the
canvas and the fabric object resolve.  In the page updater, the element
removed at `oldIndex` is the layer found by the guard (`movedLayer`), pages
being identified by unique ids. -/
def reorderLayers (w : World) (now : Nat) (pageId : String)
    (oldIndex newIndex : Int) : World × List Effect :=
  match w.design with
  | none => (w, [])
  | some design =>
    match design.pages.find? fun p => p.id = pageId with
    | none => (w, [])
    | some currentPage =>
      match jsIndex currentPage.layers oldIndex with
      | none => (w, [])
      | some movedLayer =>
        match movedLayer.fabricObjectId with
        | none => (w, [])
        | some fid =>
          let updatedDesign := { design with
            pages := updatePage design.pages pageId fun page =>
              { page with
                layers := spliceInsert (spliceRemove page.layers oldIndex.toNat)
                  newIndex movedLayer
                updatedAt := now }
            updatedAt := now }
          let w' := { w with design := some updatedDesign }
          match lookupCanvas w.canvasRefs pageId with
          | none => (w', [.saveDesignEff updatedDesign])
          | some canvas =>
            match canvas.objects.find? fun o => o.id = some fid with
            | none => (w', [.saveDesignEff updatedDesign])
            | some fabricObject =>
              let canvas' := { canvas with
                objects := moveObjectTo canvas.objects fabricObject newIndex }
              ({ w' with canvasRefs := setRef w'.canvasRefs pageId canvas' },
                [.saveDesignEff updatedDesign, .renderEff])

/-- `setActiveLayer(pageId, layerId | null)`: always writes the page's
`activeLayerId` pointer and persists; only when `layerId` is non-null does it
look at the canvas, and then calls `setActiveObject` only if the canvas's
current active object id differs from the layer's `fabricObjectId` and the
referenced object is found.  When `layerId` is null nothing is done to the
canvas (the `if (layerId)` guard skips the whole synchronization block). -/
def setActiveLayer (w : World) (pageId : String) (layerId : Option String) :
    World × List Effect :=
  match w.design with
  | none => (w, [])
  | some design =>
    let updatedDesign := { design with
      pages := updatePage design.pages pageId fun page =>
        { page with activeLayerId := layerId } }
    let w' := { w with design := some updatedDesign }
    match layerId with
    | none => (w', [.saveDesignEff updatedDesign])
    | some lid =>
      match updatedDesign.pages.find? fun p => p.id = pageId with
      | none => (w', [.saveDesignEff updatedDesign])
      | some currentPage =>
        match currentPage.layers.find? fun l => l.id = lid with
        | none => (w', [.saveDesignEff updatedDesign])
        | some layer =>
          match layer.fabricObjectId with
          | none => (w', [.saveDesignEff updatedDesign])
          | some fid =>
            match lookupCanvas w.canvasRefs pageId with
            | none => (w', [.saveDesignEff updatedDesign])
            | some canvas =>
              let currentActiveId := canvas.activeObject.bind FabricObject.id
              if currentActiveId = some fid then
                (w', [.saveDesignEff updatedDesign])
              else
                match canvas.objects.find? fun o => o.id = some fid with
                | none => (w', [.saveDesignEff updatedDesign])
                | some fabricObject =>
                  let canvas' := { canvas with activeObject := some fabricObject }
                  ({ w' with canvasRefs := setRef w'.canvasRefs pageId canvas' },
                    [.saveDesignEff updatedDesign,
                      .setActiveObjectEff fabricObject, .renderEff])

/-- `toggleLayerVisibility(pageId, layerId)`; `now` is `Date.now()`.
Returns unchanged when the page or layer is not found or the layer has no
`fabricObjectId`; otherwise flips `visible` in the design, persists, and
mirrors `visible/selectable/evented` onto the fabric object when it
resolves. -/
def toggleLayerVisibility (w : World) (now : Nat) (pageId layerId : String) :
    World × List Effect :=
  match w.design with
  | none => (w, [])
  | some design =>
    match design.pages.find? fun p => p.id = pageId with
    | none => (w, [])
    | some currentPage =>
      match currentPage.layers.find? fun l => l.id = layerId with
      | none => (w, [])
      | some layer =>
        match layer.fabricObjectId with
        | none => (w, [])
        | some fid =>
          let newVisible := !layer.visible
          let updatedDesign := { design with
            pages := updateLayer design.pages pageId layerId fun l =>
              { l with visible := newVisible }
            updatedAt := now }
          let w' := { w with design := some updatedDesign }
          match lookupCanvas w.canvasRefs pageId with
          | none => (w', [.saveDesignEff updatedDesign])
          | some canvas =>
            match canvas.objects.find? fun o => o.id = some fid with
            | none => (w', [.saveDesignEff updatedDesign])
            | some fabricObject =>
              let fabricObject' := { fabricObject with
                visible := newVisible
                selectable := newVisible
                evented := newVisible }
              let canvas' := { canvas with objects := canvas.objects.map fun o =>
                if o = fabricObject then fabricObject' else o }
              ({ w' with canvasRefs := setRef w'.canvasRefs pageId canvas' },
                [.saveDesignEff updatedDesign, .renderEff])

/-- `toggleLayerLock(pageId, layerId)`; `now` is `Date.now()`.  Same guard
structure as `toggleLayerVisibility`, flipping `locked` and mirroring the
lock flags onto the fabric object. -/
def toggleLayerLock (w : World) (now : Nat) (pageId layerId : String) :
    World × List Effect :=
  match w.design with
  | none => (w, [])
  | some design =>
    match design.pages.find? fun p => p.id = pageId with
    | none => (w, [])
    | some currentPage =>
      match currentPage.layers.find? fun l => l.id = layerId with
      | none => (w, [])
      | some layer =>
        match layer.fabricObjectId with
        | none => (w, [])
        | some fid =>
          let newLocked := !layer.locked
          let updatedDesign := { design with
            pages := updateLayer design.pages pageId layerId fun l =>
              { l with locked := newLocked }
            updatedAt := now }
          let w' := { w with design := some updatedDesign }
          match lookupCanvas w.canvasRefs pageId with
          | none => (w', [.saveDesignEff updatedDesign])
          | some canvas =>
            match canvas.objects.find? fun o => o.id = some fid with
            | none => (w', [.saveDesignEff updatedDesign])
            | some fabricObject =>
              let fabricObject' := { fabricObject with
                selectable := !newLocked
                evented := !newLocked
                lockMovementX := newLocked
                lockMovementY := newLocked
                lockRotation := newLocked
                lockScalingX := newLocked
                lockScalingY := newLocked }
              let canvas' := { canvas with objects := canvas.objects.map fun o =>
                if o = fabricObject then fabricObject' else o }
              ({ w' with canvasRefs := setRef w'.canvasRefs pageId canvas' },
                [.saveDesignEff updatedDesign, .renderEff])

/-- `loadPageData(pageId)`: resolves a canvas (by `pageId`, else the first
registered entry), skips when none resolves or its element is not live;
fetches the persisted snapshot; on success `loadFromJSON` replaces the scene,
on parse failure the catch block logs `console.error` and then **clears the
canvas**; with no snapshot nothing is touched and nothing is logged at error
level. -/
def loadPageData (w : World) (pageId : String) : World × List Effect :=
  match w.design with
  | none => (w, [])
  | some design =>
    let canvasOpt : Option (String × Canvas) :=
      match lookupCanvas w.canvasRefs pageId with
      | some c => some (pageId, c)
      | none =>
        match w.canvasRefs with
        | [] => none
        | (_, none) :: _ => none
        | (k, some c) :: _ => some (k, c)
    match canvasOpt with
    | none => (w, [])
    | some (key, canvas) =>
      if !canvas.hasElement then (w, [])
      else
        match getPageData w.pageData design.id pageId with
        | none => (w, [])
        | some canvasJSON =>
          match parse canvasJSON with
          | some scene =>
            let canvas' := { canvas with objects := scene, activeObject := none }
            ({ w with canvasRefs := setRef w.canvasRefs key canvas' },
              [.renderEff])
          | none =>
            let canvas' := { canvas with objects := [], activeObject := none }
            ({ w with canvasRefs := setRef w.canvasRefs key canvas' },
              [.logErrorEff "loadPageData failed to load canvas data",
                .renderEff])

/-- C5: when a design has exactly one page, `deletePage` targeting that page
is rejected as a complete no-op: the design (hence `pages.length` and
`activePageId`) is unchanged, the `pageData` table is untouched, and no
persistence effect is issued. -/
theorem deletePage_last_page_rejected (w : World) (now : Nat) (d : Design)
    (p : Page) (hd : w.design = some d) (hp : d.pages = [p]) :
    deletePage w now p.id = (w, []) := by
  simp [deletePage, hd, hp]

/-- Witness for C5: a one-page design with a persisted snapshot; deleting
the page leaves the world (snapshot included) unchanged. -/
theorem deletePage_last_page_rejected_witness :
    (⟨some ⟨"d1", "未命名设计",
        [⟨"p1", ⟨"cfg1", "页面 1", 800, 600, none⟩, [], none, 0, 0⟩],
        "p1", 0, 0⟩, [], [("d1", "p1", Snap.valid [])]⟩ : World).design
      = some ⟨"d1", "未命名设计",
        [⟨"p1", ⟨"cfg1", "页面 1", 800, 600, none⟩, [], none, 0, 0⟩],
        "p1", 0, 0⟩ ∧
    deletePage
      ⟨some ⟨"d1", "未命名设计",
        [⟨"p1", ⟨"cfg1", "页面 1", 800, 600, none⟩, [], none, 0, 0⟩],
        "p1", 0, 0⟩, [], [("d1", "p1", Snap.valid [])]⟩ 5 "p1"
      = (⟨some ⟨"d1", "未命名设计",
        [⟨"p1", ⟨"cfg1", "页面 1", 800, 600, none⟩, [], none, 0, 0⟩],
        "p1", 0, 0⟩, [], [("d1", "p1", Snap.valid [])]⟩, []) :=
  ⟨rfl, deletePage_last_page_rejected _ 5 _
    ⟨"p1", ⟨"cfg1", "页面 1", 800, 600, none⟩, [], none, 0, 0⟩ rfl rfl⟩

/-- C10: when the layer found for `layerId` has no `fabricObjectId`
back-reference, both `toggleLayerVisibility` and `toggleLayerLock` return
with the entire world unchanged and no effects — the guard
`if (!layer || !layer.fabricObjectId) return;` fires before the design is
updated, so the `visible`/`locked` flag is not flipped and no `updatedAt`
is touched; the whole operation is a no-op, not merely the
canvas-synchronization step. -/
theorem toggle_missing_linkage_noop (w : World) (now : Nat)
    (pageId layerId : String) (d : Design) (page : Page) (layer : Layer)
    (hd : w.design = some d)
    (hpage : d.pages.find? (fun p => p.id = pageId) = some page)
    (hlayer : page.layers.find? (fun l => l.id = layerId) = some layer)
    (hfid : layer.fabricObjectId = none) :
    toggleLayerVisibility w now pageId layerId = (w, []) ∧
    toggleLayerLock w now pageId layerId = (w, []) := by
  constructor
  · simp [toggleLayerVisibility, hd, hpage, hlayer, hfid]
  · simp [toggleLayerLock, hd, hpage, hlayer, hfid]

/-- Witness for C10: a page whose only layer has `fabricObjectId := none`;
both toggles leave the world unchanged. -/
theorem toggle_missing_linkage_noop_witness :
    (⟨some ⟨"d2", "n",
        [⟨"p2", ⟨"cfg2", "页面 1", 800, 600, none⟩,
          [⟨"l1", "文本", "text", true, false, 100, none⟩], none, 3, 3⟩],
        "p2", 3, 3⟩, [], []⟩ : World).design
      = some ⟨"d2", "n",
        [⟨"p2", ⟨"cfg2", "页面 1", 800, 600, none⟩,
          [⟨"l1", "文本", "text", true, false, 100, none⟩], none, 3, 3⟩],
        "p2", 3, 3⟩ ∧
    toggleLayerVisibility
      ⟨some ⟨"d2", "n",
        [⟨"p2", ⟨"cfg2", "页面 1", 800, 600, none⟩,
          [⟨"l1", "文本", "text", true, false, 100, none⟩], none, 3, 3⟩],
        "p2", 3, 3⟩, [], []⟩ 9 "p2" "l1"
      = (⟨some ⟨"d2", "n",
        [⟨"p2", ⟨"cfg2", "页面 1", 800, 600, none⟩,
          [⟨"l1", "文本", "text", true, false, 100, none⟩], none, 3, 3⟩],
        "p2", 3, 3⟩, [], []⟩, []) ∧
    toggleLayerLock
      ⟨some ⟨"d2", "n",
        [⟨"p2", ⟨"cfg2", "页面 1", 800, 600, none⟩,
          [⟨"l1", "文本", "text", true, false, 100, none⟩], none, 3, 3⟩],
        "p2", 3, 3⟩, [], []⟩ 9 "p2" "l1"
      = (⟨some ⟨"d2", "n",
        [⟨"p2", ⟨"cfg2", "页面 1", 800, 600, none⟩,
          [⟨"l1", "文本", "text", true, false, 100, none⟩], none, 3, 3⟩],
        "p2", 3, 3⟩, [], []⟩, []) := by
  have h := toggle_missing_linkage_noop
    ⟨some ⟨"d2", "n",
        [⟨"p2", ⟨"cfg2", "页面 1", 800, 600, none⟩,
          [⟨"l1", "文本", "text", true, false, 100, none⟩], none, 3, 3⟩],
        "p2", 3, 3⟩, [], []⟩ 9 "p2" "l1"
    ⟨"d2", "n",
        [⟨"p2", ⟨"cfg2", "页面 1", 800, 600, none⟩,
          [⟨"l1", "文本", "text", true, false, 100, none⟩], none, 3, 3⟩],
        "p2", 3, 3⟩
    ⟨"p2", ⟨"cfg2", "页面 1", 800, 600, none⟩,
      [⟨"l1", "文本", "text", true, false, 100, none⟩], none, 3, 3⟩
    ⟨"l1", "文本", "text", true, false, 100, none⟩ rfl (by decide) (by decide) rfl
  exact ⟨rfl, h.1, h.2⟩

theorem getPageData_cons_of_ne (e : String × String × Snap (List FabricObject))
    (t : List (String × String × Snap (List FabricObject))) (did pid : String)
    (h : ¬(e.1 = did ∧ e.2.1 = pid)) :
    getPageData (e :: t) did pid = getPageData t did pid := by
  unfold getPageData
  rw [List.find?_cons_of_neg _ (by simp [h])]

theorem getPageData_cons_of_eq (e : String × String × Snap (List FabricObject))
    (t : List (String × String × Snap (List FabricObject))) (did pid : String)
    (h : e.1 = did ∧ e.2.1 = pid) :
    getPageData (e :: t) did pid = some e.2.2 := by
  unfold getPageData
  rw [List.find?_cons_of_pos _ (by simp [h.1, h.2])]
  rfl

theorem deletePageData_cons (e : String × String × Snap (List FabricObject))
    (t : List (String × String × Snap (List FabricObject))) (did pid : String) :
    deletePageData (e :: t) did pid
      = if e.1 = did ∧ e.2.1 = pid then deletePageData t did pid
        else e :: deletePageData t did pid := by
  unfold deletePageData
  rw [List.filter_cons]
  by_cases h : e.1 = did ∧ e.2.1 = pid
  · rw [if_pos h, if_neg (by simp [h.1, h.2])]
  · rw [if_neg h, if_pos (by simp [h])]

theorem getPageData_deletePageData_self
    (tbl : List (String × String × Snap (List FabricObject)))
    (did pid : String) :
    getPageData (deletePageData tbl did pid) did pid = none := by
  induction tbl with
  | nil => rfl
  | cons e t ih =>
    rw [deletePageData_cons]
    by_cases h : e.1 = did ∧ e.2.1 = pid
    · rw [if_pos h]
      exact ih
    · rw [if_neg h, getPageData_cons_of_ne _ _ _ _ h]
      exact ih

theorem getPageData_deletePageData_other
    (tbl : List (String × String × Snap (List FabricObject)))
    (did pid did' pid' : String) (h : ¬(did' = did ∧ pid' = pid)) :
    getPageData (deletePageData tbl did pid) did' pid'
      = getPageData tbl did' pid' := by
  induction tbl with
  | nil => rfl
  | cons e t ih =>
    rw [deletePageData_cons]
    by_cases he : e.1 = did ∧ e.2.1 = pid
    · have hne : ¬(e.1 = did' ∧ e.2.1 = pid') := by
        rintro ⟨h1, h2⟩
        exact h ⟨h1 ▸ he.1, h2 ▸ he.2⟩
      rw [if_pos he, ih, getPageData_cons_of_ne _ _ _ _ hne]
    · rw [if_neg he]
      by_cases he' : e.1 = did' ∧ e.2.1 = pid'
      · rw [getPageData_cons_of_eq _ _ _ _ he', getPageData_cons_of_eq _ _ _ _ he']
      · rw [getPageData_cons_of_ne _ _ _ _ he', getPageData_cons_of_ne _ _ _ _ he', ih]

/-- C6: on a design with at least two pages (ids unique), deleting the page
`tgt` removes exactly that page and keeps the others in order; when `tgt`
was the active page, `activePageId` is reassigned to the first remaining
page's id, otherwise it is unchanged; and `tgt`'s persisted snapshot is
deleted from the page-data store (its key resolves to nothing afterwards,
every other key is untouched), with the `deletePageData` persistence call
issued. -/
theorem deletePage_removes_and_reassigns (w : World) (now : Nat) (d : Design)
    (tgt q0 : Page) (pre post qs : List Page)
    (hd : w.design = some d)
    (hsplit : d.pages = pre ++ tgt :: post)
    (hhead : pre ++ post = q0 :: qs)
    (huniq : ∀ q ∈ pre ++ post, q.id ≠ tgt.id) :
    (deletePage w now tgt.id).1.design
      = some { d with
          pages := q0 :: qs
          activePageId := if d.activePageId = tgt.id then q0.id
                          else d.activePageId
          updatedAt := now } ∧
    getPageData (deletePage w now tgt.id).1.pageData d.id tgt.id = none ∧
    (∀ did pid, ¬(did = d.id ∧ pid = tgt.id) →
      getPageData (deletePage w now tgt.id).1.pageData did pid
        = getPageData w.pageData did pid) ∧
    Effect.deletePageDataEff d.id tgt.id ∈ (deletePage w now tgt.id).2 := by
  have hfilter : (d.pages.filter fun p => p.id ≠ tgt.id) = q0 :: qs := by
    rw [hsplit, List.filter_append, List.filter_cons, if_neg (by simp)]
    rw [← List.filter_append, List.filter_eq_self.mpr, hhead]
    intro q hq
    simpa using huniq q hq
  have hdel : deletePage w now tgt.id
      = ({ w with
            design := some { d with
              pages := q0 :: qs
              activePageId := if d.activePageId = tgt.id then q0.id
                              else d.activePageId
              updatedAt := now }
            pageData := deletePageData w.pageData d.id tgt.id },
          [.saveDesignEff { d with
              pages := q0 :: qs
              activePageId := if d.activePageId = tgt.id then q0.id
                              else d.activePageId
              updatedAt := now },
            .deletePageDataEff d.id tgt.id]) := by
    simp only [deletePage, hd, hfilter]
  rw [hdel]
  refine ⟨rfl, ?_, ?_, ?_⟩
  · exact getPageData_deletePageData_self w.pageData d.id tgt.id
  · intro did pid hne
    exact getPageData_deletePageData_other w.pageData d.id tgt.id did pid hne
  · simp

/-- Witness for C6: a two-page design with the active first page deleted;
the second page survives, becomes active, and its own snapshot survives
while the deleted page's snapshot is gone. -/
theorem deletePage_removes_and_reassigns_witness :
    (deletePage
        ⟨some ⟨"d3", "n",
          [⟨"pA", ⟨"ca", "A", 800, 600, none⟩, [], none, 1, 1⟩,
            ⟨"pB", ⟨"cb", "B", 800, 600, none⟩, [], none, 2, 2⟩],
          "pA", 1, 1⟩, [],
          [("d3", "pA", Snap.valid []), ("d3", "pB", Snap.valid [])]⟩
        7 "pA").1.design
      = some ⟨"d3", "n",
          [⟨"pB", ⟨"cb", "B", 800, 600, none⟩, [], none, 2, 2⟩],
          "pB", 1, 7⟩ ∧
    getPageData (deletePage
        ⟨some ⟨"d3", "n",
          [⟨"pA", ⟨"ca", "A", 800, 600, none⟩, [], none, 1, 1⟩,
            ⟨"pB", ⟨"cb", "B", 800, 600, none⟩, [], none, 2, 2⟩],
          "pA", 1, 1⟩, [],
          [("d3", "pA", Snap.valid []), ("d3", "pB", Snap.valid [])]⟩
        7 "pA").1.pageData "d3" "pA" = none ∧
    getPageData (deletePage
        ⟨some ⟨"d3", "n",
          [⟨"pA", ⟨"ca", "A", 800, 600, none⟩, [], none, 1, 1⟩,
            ⟨"pB", ⟨"cb", "B", 800, 600, none⟩, [], none, 2, 2⟩],
          "pA", 1, 1⟩, [],
          [("d3", "pA", Snap.valid []), ("d3", "pB", Snap.valid [])]⟩
        7 "pA").1.pageData "d3" "pB" = some (Snap.valid []) := by
  have h := deletePage_removes_and_reassigns
    ⟨some ⟨"d3", "n",
      [⟨"pA", ⟨"ca", "A", 800, 600, none⟩, [], none, 1, 1⟩,
        ⟨"pB", ⟨"cb", "B", 800, 600, none⟩, [], none, 2, 2⟩],
      "pA", 1, 1⟩, [],
      [("d3", "pA", Snap.valid []), ("d3", "pB", Snap.valid [])]⟩
    7
    ⟨"d3", "n",
      [⟨"pA", ⟨"ca", "A", 800, 600, none⟩, [], none, 1, 1⟩,
        ⟨"pB", ⟨"cb", "B", 800, 600, none⟩, [], none, 2, 2⟩],
      "pA", 1, 1⟩
    ⟨"pA", ⟨"ca", "A", 800, 600, none⟩, [], none, 1, 1⟩
    ⟨"pB", ⟨"cb", "B", 800, 600, none⟩, [], none, 2, 2⟩
    [] [⟨"pB", ⟨"cb", "B", 800, 600, none⟩, [], none, 2, 2⟩] []
    rfl rfl rfl (by decide)
  refine ⟨?_, h.2.1, ?_⟩
  · rw [h.1]; rfl
  · rw [h.2.2.1 "d3" "pB" (by decide)]; rfl

/-- C8 (amended): `reorderLayers` is a no-op — design, canvases, page data
and effects all unchanged — whenever `oldIndex` is out of the bounds of the
page's layer list (`currentPage.layers[oldIndex]` is `undefined`, so the
guard returns), and likewise when the layer at `oldIndex` has no
`fabricObjectId`.  `newIndex` is not bounds-checked: an out-of-bounds
`newIndex` does not make the operation a no-op (see the counterexample),
the layer is still moved with the insertion position clamped by `splice`. -/
theorem reorderLayers_oldIndex_oob_noop (w : World) (now : Nat)
    (pageId : String) (oldIndex newIndex : Int) (d : Design) (page : Page)
    (hd : w.design = some d)
    (hpage : d.pages.find? (fun p => p.id = pageId) = some page)
    (hoob : oldIndex < 0 ∨ (page.layers.length : Int) ≤ oldIndex) :
    reorderLayers w now pageId oldIndex newIndex = (w, []) := by
  have hj : jsIndex page.layers oldIndex = none := by
    unfold jsIndex
    rcases hoob with h | h
    · rw [if_neg (by omega)]
    · rw [if_pos (by omega)]
      exact List.getElem?_eq_none (by omega)
  simp [reorderLayers, hd, hpage, hj]

/-- Witness for C8 at a concrete one-page design with two layers and
`oldIndex = 5` (out of bounds): the call changes nothing. -/
theorem reorderLayers_oldIndex_oob_noop_witness :
    (⟨some ⟨"d4", "n",
        [⟨"p4", ⟨"c4", "A", 800, 600, none⟩,
          [⟨"lA", "a", "text", true, false, 100, some "fA"⟩,
            ⟨"lB", "b", "text", true, false, 100, some "fB"⟩], none, 1, 1⟩],
        "p4", 1, 1⟩, [], []⟩ : World).design
      = some ⟨"d4", "n",
        [⟨"p4", ⟨"c4", "A", 800, 600, none⟩,
          [⟨"lA", "a", "text", true, false, 100, some "fA"⟩,
            ⟨"lB", "b", "text", true, false, 100, some "fB"⟩], none, 1, 1⟩],
        "p4", 1, 1⟩ ∧
    reorderLayers
      ⟨some ⟨"d4", "n",
        [⟨"p4", ⟨"c4", "A", 800, 600, none⟩,
          [⟨"lA", "a", "text", true, false, 100, some "fA"⟩,
            ⟨"lB", "b", "text", true, false, 100, some "fB"⟩], none, 1, 1⟩],
        "p4", 1, 1⟩, [], []⟩ 9 "p4" 5 0
      = (⟨some ⟨"d4", "n",
        [⟨"p4", ⟨"c4", "A", 800, 600, none⟩,
          [⟨"lA", "a", "text", true, false, 100, some "fA"⟩,
            ⟨"lB", "b", "text", true, false, 100, some "fB"⟩], none, 1, 1⟩],
        "p4", 1, 1⟩, [], []⟩, []) := by
  refine ⟨rfl, ?_⟩
  exact reorderLayers_oldIndex_oob_noop _ 9 "p4" 5 0
    ⟨"d4", "n",
      [⟨"p4", ⟨"c4", "A", 800, 600, none⟩,
        [⟨"lA", "a", "text", true, false, 100, some "fA"⟩,
          ⟨"lB", "b", "text", true, false, 100, some "fB"⟩], none, 1, 1⟩],
      "p4", 1, 1⟩
    ⟨"p4", ⟨"c4", "A", 800, 600, none⟩,
      [⟨"lA", "a", "text", true, false, 100, some "fA"⟩,
        ⟨"lB", "b", "text", true, false, 100, some "fB"⟩], none, 1, 1⟩
    rfl (by decide) (by decide)

/-- C8 counterexample: with two layers (indices `0` and `1`),
`reorderLayers(pageId, 0, 5)` has `newIndex = 5` out of bounds, yet it is
NOT a no-op: the first layer is moved to the end of the list (the second
`splice` clamps the insertion index), refuting the claim that an
out-of-bounds `newIndex` makes the operation a no-op. -/
theorem reorderLayers_newIndex_oob_not_noop :
    ((reorderLayers
        ⟨some ⟨"d5", "n",
          [⟨"p5", ⟨"c5", "A", 800, 600, none⟩,
            [⟨"lA", "a", "text", true, false, 100, some "fA"⟩,
              ⟨"lB", "b", "text", true, false, 100, some "fB"⟩], none, 1, 1⟩],
          "p5", 1, 1⟩, [], []⟩ 9 "p5" 0 5).1.design.map
        fun d => d.pages.map fun p => p.layers.map Layer.id)
      = some [["lB", "lA"]] ∧
    (reorderLayers
        ⟨some ⟨"d5", "n",
          [⟨"p5", ⟨"c5", "A", 800, 600, none⟩,
            [⟨"lA", "a", "text", true, false, 100, some "fA"⟩,
              ⟨"lB", "b", "text", true, false, 100, some "fB"⟩], none, 1, 1⟩],
          "p5", 1, 1⟩, [], []⟩ 9 "p5" 0 5).1
      ≠ ⟨some ⟨"d5", "n",
          [⟨"p5", ⟨"c5", "A", 800, 600, none⟩,
            [⟨"lA", "a", "text", true, false, 100, some "fA"⟩,
              ⟨"lB", "b", "text", true, false, 100, some "fB"⟩], none, 1, 1⟩],
          "p5", 1, 1⟩, [], []⟩ := by
  refine ⟨by decide, by decide⟩

theorem find?_updatePage (pages : List Page) (pageId : String)
    (updater : Page → Page) (page : Page)
    (hid : ∀ p, (updater p).id = p.id)
    (hfind : pages.find? (fun p => p.id = pageId) = some page) :
    (updatePage pages pageId updater).find? (fun p => p.id = pageId)
      = some (updater page) := by
  induction pages with
  | nil => simp at hfind
  | cons p t ih =>
    unfold updatePage at ih ⊢
    rw [List.map_cons]
    by_cases h : p.id = pageId
    · rw [if_pos h, List.find?_cons_of_pos _ (by simp [hid p, h])]
      rw [List.find?_cons_of_pos _ (by simp [h])] at hfind
      cases hfind
      rfl
    · rw [if_neg h, List.find?_cons_of_neg _ (by simp [h])]
      rw [List.find?_cons_of_neg _ (by simp [h])] at hfind
      exact ih hfind

theorem lookupCanvas_setRef_self (refs : List (String × Option Canvas))
    (key : String) (c c0 : Canvas)
    (h : lookupCanvas refs key = some c0) :
    lookupCanvas (setRef refs key c) key = some c := by
  induction refs with
  | nil => simp [lookupCanvas] at h
  | cons e t ih =>
    unfold lookupCanvas at h
    unfold lookupCanvas setRef at ih ⊢
    rw [List.map_cons]
    by_cases he : e.1 = key
    · rw [if_pos he, List.find?_cons_of_pos _ (by simp [he])]
    · rw [if_neg he, List.find?_cons_of_neg _ (by simp [he])]
      rw [List.find?_cons_of_neg _ (by simp [he])] at h
      exact ih h

/-- C9 (amended): `setActiveLayer(pageId, layerId)` always sets the target
page's active-layer pointer to `layerId`; when `layerId` is null it leaves
every canvas untouched and issues no selection-synchronization call at all
(the existing canvas selection is NOT cleared — see the counterexample);
when `layerId` is non-null and resolves to a layer with a `fabricObjectId`
and a registered canvas, the synchronization call (`setActiveObject`) is
issued only when the layer's object id differs from the canvas's current
active object id, in which case the canvas selection becomes the referenced
object (when it resolves among the canvas objects). -/
theorem setActiveLayer_spec (w : World) (pageId : String)
    (layerId : Option String) (d : Design) (page : Page)
    (hd : w.design = some d)
    (hpage : d.pages.find? (fun p => p.id = pageId) = some page) :
    ((setActiveLayer w pageId layerId).1.design.bind
        fun d' => d'.pages.find? fun p => p.id = pageId)
      = some { page with activeLayerId := layerId } ∧
    (layerId = none →
      (setActiveLayer w pageId layerId).1.canvasRefs = w.canvasRefs ∧
      ∀ o, Effect.setActiveObjectEff o ∉ (setActiveLayer w pageId layerId).2) ∧
    (∀ lid layer fid canvas, layerId = some lid →
      page.layers.find? (fun l => l.id = lid) = some layer →
      layer.fabricObjectId = some fid →
      lookupCanvas w.canvasRefs pageId = some canvas →
      ((canvas.activeObject.bind FabricObject.id = some fid →
        (setActiveLayer w pageId layerId).1.canvasRefs = w.canvasRefs ∧
        ∀ o, Effect.setActiveObjectEff o ∉ (setActiveLayer w pageId layerId).2) ∧
      (canvas.activeObject.bind FabricObject.id ≠ some fid →
        ∀ fobj, canvas.objects.find? (fun o => o.id = some fid) = some fobj →
          Effect.setActiveObjectEff fobj ∈ (setActiveLayer w pageId layerId).2 ∧
          lookupCanvas (setActiveLayer w pageId layerId).1.canvasRefs pageId
            = some { canvas with activeObject := some fobj }))) := by
  have hid : ∀ p : Page, (({ p with activeLayerId := layerId } : Page)).id = p.id :=
    fun _ => rfl
  have hpage' := find?_updatePage d.pages pageId
    (fun p => { p with activeLayerId := layerId }) page hid hpage
  have hdesign : (setActiveLayer w pageId layerId).1.design
      = some { d with pages := updatePage d.pages pageId (fun p => { p with activeLayerId := layerId }) } := by
    unfold setActiveLayer
    rw [hd]
    cases layerId with
    | none => rfl
    | some lid =>
      dsimp only
      repeat' split
      all_goals rfl
  refine ⟨?_, ?_, ?_⟩
  · rw [hdesign]
    simpa using hpage'
  · rintro rfl
    have hnone : setActiveLayer w pageId none
        = ({ w with design := some { d with pages := updatePage d.pages pageId (fun p => { p with activeLayerId := none }) } },
          [.saveDesignEff { d with pages := updatePage d.pages pageId (fun p => { p with activeLayerId := none }) }]) := by
      unfold setActiveLayer
      rw [hd]
    rw [hnone]
    exact ⟨rfl, by simp⟩
  · rintro lid layer fid canvas rfl hlayer hfid hcanvas
    have hcomp : setActiveLayer w pageId (some lid)
        = (let updatedDesign := { d with pages := updatePage d.pages pageId (fun p => { p with activeLayerId := some lid }) }
          let w' := { w with design := some updatedDesign }
          if canvas.activeObject.bind FabricObject.id = some fid then
            (w', [.saveDesignEff updatedDesign])
          else
            match canvas.objects.find? fun o => o.id = some fid with
            | none => (w', [.saveDesignEff updatedDesign])
            | some fabricObject =>
              let canvas' := { canvas with activeObject := some fabricObject }
              ({ w' with canvasRefs := setRef w'.canvasRefs pageId canvas' },
                [.saveDesignEff updatedDesign,
                  .setActiveObjectEff fabricObject, .renderEff])) := by
      unfold setActiveLayer
      rw [hd]
      dsimp only
      rw [hpage']
      dsimp only
      rw [hlayer]
      dsimp only
      rw [hfid]
      dsimp only
      rw [hcanvas]
    constructor
    · intro heq
      rw [hcomp]
      dsimp only
      rw [if_pos heq]
      exact ⟨rfl, by simp⟩
    · intro hne fobj hfobj
      rw [hcomp]
      dsimp only
      rw [if_neg hne, hfobj]
      dsimp only
      refine ⟨by simp, ?_⟩
      exact lookupCanvas_setRef_self w.canvasRefs pageId _ canvas hcanvas

/-- Witness for C9 at a concrete design (page `p6`, layer `l6` bound to
fabric object `fX`, a registered canvas): the theorem applies and the page's
active-layer pointer is set. -/
theorem setActiveLayer_spec_witness :
    (⟨some ⟨"d6", "n",
        [⟨"p6", ⟨"c6", "A", 800, 600, none⟩,
          [⟨"l6", "a", "text", true, false, 100, some "fX"⟩], none, 1, 1⟩],
        "p6", 1, 1⟩,
      [("p6", some ⟨[⟨some "fX", true, true, true, false, false, false, false,
          false⟩], none, true⟩)], []⟩ : World).design
      = some ⟨"d6", "n",
        [⟨"p6", ⟨"c6", "A", 800, 600, none⟩,
          [⟨"l6", "a", "text", true, false, 100, some "fX"⟩], none, 1, 1⟩],
        "p6", 1, 1⟩ ∧
    ((setActiveLayer
        ⟨some ⟨"d6", "n",
          [⟨"p6", ⟨"c6", "A", 800, 600, none⟩,
            [⟨"l6", "a", "text", true, false, 100, some "fX"⟩], none, 1, 1⟩],
          "p6", 1, 1⟩,
        [("p6", some ⟨[⟨some "fX", true, true, true, false, false, false, false,
            false⟩], none, true⟩)], []⟩ "p6" (some "l6")).1.design.bind
        fun d' => d'.pages.find? fun p => p.id = "p6")
      = some ⟨"p6", ⟨"c6", "A", 800, 600, none⟩,
          [⟨"l6", "a", "text", true, false, 100, some "fX"⟩], some "l6", 1, 1⟩ := by
  refine ⟨rfl, ?_⟩
  exact (setActiveLayer_spec
    ⟨some ⟨"d6", "n",
      [⟨"p6", ⟨"c6", "A", 800, 600, none⟩,
        [⟨"l6", "a", "text", true, false, 100, some "fX"⟩], none, 1, 1⟩],
      "p6", 1, 1⟩,
      [("p6", some ⟨[⟨some "fX", true, true, true, false, false, false, false,
        false⟩], none, true⟩)], []⟩ "p6" (some "l6")
    ⟨"d6", "n",
      [⟨"p6", ⟨"c6", "A", 800, 600, none⟩,
        [⟨"l6", "a", "text", true, false, 100, some "fX"⟩], none, 1, 1⟩],
      "p6", 1, 1⟩
    ⟨"p6", ⟨"c6", "A", 800, 600, none⟩,
      [⟨"l6", "a", "text", true, false, 100, some "fX"⟩], none, 1, 1⟩
    rfl (by decide)).1

/-- C9 counterexample: `setActiveLayer(pageId, null)` with a canvas whose
selection is the object `fX`.  The page's active-layer pointer IS cleared,
but the canvas selection is NOT cleared — it still holds `fX` — refuting
the claim that the operation clears the canvas selection when `layerId` is
null (the `if (layerId)` guard skips the whole canvas block, and
`discardActiveObject` is never called anywhere in the store). -/
theorem setActiveLayer_null_does_not_clear :
    ((lookupCanvas (setActiveLayer
        ⟨some ⟨"d7", "n",
          [⟨"p7", ⟨"c7", "A", 800, 600, none⟩,
            [⟨"l7", "a", "text", true, false, 100, some "fX"⟩], some "l7", 1, 1⟩],
          "p7", 1, 1⟩,
        [("p7", some ⟨[⟨some "fX", true, true, true, false, false, false, false,
            false⟩], some ⟨some "fX", true, true, true, false, false, false,
            false, false⟩, true⟩)], []⟩ "p7" none).1.canvasRefs "p7").map
        Canvas.activeObject)
      = some (some ⟨some "fX", true, true, true, false, false, false, false,
          false⟩) ∧
    ((setActiveLayer
        ⟨some ⟨"d7", "n",
          [⟨"p7", ⟨"c7", "A", 800, 600, none⟩,
            [⟨"l7", "a", "text", true, false, 100, some "fX"⟩], some "l7", 1, 1⟩],
          "p7", 1, 1⟩,
        [("p7", some ⟨[⟨some "fX", true, true, true, false, false, false, false,
            false⟩], some ⟨some "fX", true, true, true, false, false, false,
            false, false⟩, true⟩)], []⟩ "p7" none).1.design.map
        fun d => d.pages.map Page.activeLayerId)
      = some [none] := by
  exact ⟨by decide, by decide⟩

/-- C7 (amended): for `loadPageData(pageId)` with a live canvas registered
for the page: when a persisted snapshot exists but deserializing it fails,
the error is logged via `console.error` and the canvas is CLEARED to the
empty scene (the catch block calls `canvas.clear()`; the scene is not left
untouched — see the counterexample); when no persisted snapshot exists, the
whole call is a no-op leaving the scene in its freshly-initialized state
with no error logged. -/
theorem loadPageData_spec (w : World) (pageId : String) (d : Design)
    (canvas : Canvas)
    (hd : w.design = some d)
    (hc : lookupCanvas w.canvasRefs pageId = some canvas)
    (hel : canvas.hasElement = true) :
    (∀ snap, getPageData w.pageData d.id pageId = some snap →
      parse snap = none →
      lookupCanvas (loadPageData w pageId).1.canvasRefs pageId
        = some { canvas with objects := [], activeObject := none } ∧
      Effect.logErrorEff "loadPageData failed to load canvas data"
        ∈ (loadPageData w pageId).2) ∧
    (getPageData w.pageData d.id pageId = none →
      loadPageData w pageId = (w, [])) := by
  have hcomp : loadPageData w pageId
      = (match getPageData w.pageData d.id pageId with
        | none => (w, [])
        | some canvasJSON =>
          match parse canvasJSON with
          | some scene =>
            let canvas' := { canvas with objects := scene, activeObject := none }
            ({ w with canvasRefs := setRef w.canvasRefs pageId canvas' },
              [.renderEff])
          | none =>
            let canvas' := { canvas with objects := [], activeObject := none }
            ({ w with canvasRefs := setRef w.canvasRefs pageId canvas' },
              [.logErrorEff "loadPageData failed to load canvas data",
                .renderEff])) := by
    unfold loadPageData
    rw [hd]
    dsimp only
    rw [hc]
    dsimp only
    rw [hel]
    rfl
  constructor
  · intro snap hsnap hparse
    rw [hcomp, hsnap]
    dsimp only
    rw [hparse]
    dsimp only
    exact ⟨lookupCanvas_setRef_self w.canvasRefs pageId _ canvas hc, by simp⟩
  · intro hnone
    rw [hcomp, hnone]

/-- Witness for C7 at a concrete world whose page `p9` has a corrupt
persisted snapshot and a live canvas holding one object: the failure branch
applies, the canvas ends cleared and the error is logged. -/
theorem loadPageData_spec_witness :
    parse (Snap.corrupt "bad" : Snap (List FabricObject)) = none ∧
    (lookupCanvas (loadPageData
        ⟨some ⟨"d9", "n",
          [⟨"p9", ⟨"c9", "A", 800, 600, none⟩, [], none, 1, 1⟩], "p9", 1, 1⟩,
        [("p9", some ⟨[⟨some "fY", true, true, true, false, false, false, false,
            false⟩], none, true⟩)],
        [("d9", "p9", Snap.corrupt "bad")]⟩ "p9").1.canvasRefs "p9"
        = some ⟨[], none, true⟩ ∧
      Effect.logErrorEff "loadPageData failed to load canvas data"
        ∈ (loadPageData
        ⟨some ⟨"d9", "n",
          [⟨"p9", ⟨"c9", "A", 800, 600, none⟩, [], none, 1, 1⟩], "p9", 1, 1⟩,
        [("p9", some ⟨[⟨some "fY", true, true, true, false, false, false, false,
            false⟩], none, true⟩)],
        [("d9", "p9", Snap.corrupt "bad")]⟩ "p9").2) := by
  refine ⟨rfl, ?_⟩
  exact (loadPageData_spec
    ⟨some ⟨"d9", "n",
      [⟨"p9", ⟨"c9", "A", 800, 600, none⟩, [], none, 1, 1⟩], "p9", 1, 1⟩,
      [("p9", some ⟨[⟨some "fY", true, true, true, false, false, false, false,
        false⟩], none, true⟩)],
      [("d9", "p9", Snap.corrupt "bad")]⟩ "p9"
    ⟨"d9", "n", [⟨"p9", ⟨"c9", "A", 800, 600, none⟩, [], none, 1, 1⟩], "p9", 1, 1⟩
    ⟨[⟨some "fY", true, true, true, false, false, false, false, false⟩], none,
      true⟩
    rfl (by decide) rfl).1 (Snap.corrupt "bad") (by decide) rfl

/-- C7 counterexample: the canvas for page `p8` holds one object and its
persisted snapshot is corrupt; after `loadPageData` the canvas's object list
is empty — the scene was cleared, not left untouched as the claim states. -/
theorem loadPageData_failure_not_untouched :
    ((lookupCanvas
        (⟨some ⟨"d8", "n",
          [⟨"p8", ⟨"c8", "A", 800, 600, none⟩, [], none, 1, 1⟩], "p8", 1, 1⟩,
        [("p8", some ⟨[⟨some "fY", true, true, true, false, false, false, false,
            false⟩], none, true⟩)],
        [("d8", "p8", Snap.corrupt "garbage")]⟩ : World).canvasRefs "p8").map
        Canvas.objects)
      = some [⟨some "fY", true, true, true, false, false, false, false, false⟩] ∧
    ((lookupCanvas (loadPageData
        ⟨some ⟨"d8", "n",
          [⟨"p8", ⟨"c8", "A", 800, 600, none⟩, [], none, 1, 1⟩], "p8", 1, 1⟩,
        [("p8", some ⟨[⟨some "fY", true, true, true, false, false, false, false,
            false⟩], none, true⟩)],
        [("d8", "p8", Snap.corrupt "garbage")]⟩ "p8").1.canvasRefs "p8").map
        Canvas.objects)
      = some [] := by
  exact ⟨by decide, by decide⟩

end Appic
